import Mathlib

set_option maxRecDepth 8000

/-!
Shallow embedding of the repository carolinancarnicelli/project_langchain_alura.

Source files embedded here:
* `src/App.py`: flexible CSV loading (header-row detection), construction of the
  react agent (`AgentExecutor` with `max_iterations=4`, `handle_parsing_errors=True`),
  the two quick-action buttons, and the question/chart entry points.
* `src/ferramentas.py`: the four capabilities (`informacoes_dataframe`,
  `resumo_estatistico`, `gerar_grafico`, `PythonAstREPLTool`) and the tool
  registry `criar_ferramentas`.

Modelling conventions:
* A pandas DataFrame is a list of named columns; each column is either a
  numeric-dtype column (`List (Option ℚ)`, `none` = NaN) or an object/text
  column (`List (Option String)`, `none` = NaN).  Machine floats are modelled
  as rationals; no claim in scope depends on float rounding.
* The Groq chat model is an oracle `String → String` (prompt in, completion
  out).  For the chart tool, the composite pipeline "model completion, then
  `json.loads`" is one oracle `String → Except String ChartCfg`, where
  `Except.error raw` models a `json.JSONDecodeError` on the raw completion.
* Streamlit side effects (`st.error`, `st.text`, `st.pyplot`) are recorded as
  an explicit event list in the order they are issued.
* Exact prompt prose is abbreviated to a deterministic rendering of the same
  computed facts; no claim depends on the prompt wording.
-/

namespace ProjetoLangchain

/-- Python `str.strip` on a character list: drop leading and trailing whitespace. -/
def stripChars (cs : List Char) : List Char :=
  ((cs.dropWhile Char.isWhitespace).reverse.dropWhile Char.isWhitespace).reverse

/-- Python `str.strip`. -/
def pyStrip (s : String) : String :=
  String.mk (stripChars s.toList)

/-- Python `str.lower`. -/
def pyLower (s : String) : String :=
  String.mk (s.toList.map Char.toLower)

/-- The separator-normalization pipeline used by `resumo_estatistico` and
`gerar_grafico` (src/ferramentas.py lines 113-118, 267-273, 322-328):
`.str.strip()` then `.str.replace(".", "", regex=False)` (drop every dot, the
thousands separator) then `.str.replace(",", ".", regex=False)` (comma becomes
the decimal dot). -/
def normalizeStr (s : String) : String :=
  String.mk (((stripChars s.toList).filter (fun c => c ≠ '.')).map
    (fun c => if c = ',' then '.' else c))

/-- Value of a list of decimal digit characters. -/
def digitsToNat (cs : List Char) : ℕ :=
  cs.foldl (fun acc c => 10 * acc + (c.toNat - 48)) 0

/-- Apply an optional leading minus sign. -/
def qSign (neg : Bool) (q : ℚ) : ℚ := if neg then -q else q

/-- `pd.to_numeric(errors="coerce")` on one already-normalized string, over its
characters: an optional sign, then digits with at most one decimal dot and at
least one digit in total; anything else coerces to NaN (`none`).  (Exponent
notation, which `to_numeric` also accepts, never arises after the dot-dropping
normalization step for the inputs any theorem below evaluates.) -/
def parseNumChars (cs : List Char) : Option ℚ :=
  let signed : Bool × List Char :=
    match cs with
    | '-' :: t => (true, t)
    | '+' :: t => (false, t)
    | _ => (false, cs)
  let intPart := signed.2.takeWhile Char.isDigit
  let rest := signed.2.dropWhile Char.isDigit
  match rest with
  | [] =>
    if intPart.isEmpty then none
    else some (qSign signed.1 (digitsToNat intPart : ℚ))
  | '.' :: frac =>
    if frac.all Char.isDigit && !(intPart.isEmpty && frac.isEmpty) then
      some (qSign signed.1
        ((digitsToNat intPart : ℚ) + (digitsToNat frac : ℚ) / ((10 : ℚ) ^ frac.length)))
    else none
  | _ => none

/-- `pd.to_numeric(errors="coerce")` on one string. -/
def parseNum (s : String) : Option ℚ :=
  parseNumChars s.toList

/-- A pandas column body: numeric dtype or object (text) dtype; `none` is NaN. -/
inductive ColData where
  | nums (vs : List (Option ℚ))
  | strs (vs : List (Option String))
deriving DecidableEq

/-- A named pandas column. -/
structure Col where
  name : String
  data : ColData
deriving DecidableEq

/-- A pandas DataFrame: an ordered list of named columns. -/
structure Df where
  cols : List Col
deriving DecidableEq

/-- Number of cells stored in one column. -/
def colLen (c : Col) : ℕ :=
  match c.data with
  | .nums vs => vs.length
  | .strs vs => vs.length

/-- Row count of a DataFrame (length of its first column; 0 when there are no
columns), i.e. `df.shape[0]`. -/
def Df.nrows (df : Df) : ℕ :=
  match df.cols with
  | [] => 0
  | c :: _ => colLen c

/-- `df.columns` as a list of names. -/
def colNames (df : Df) : List String :=
  df.cols.map Col.name

/-- Python `astype(str)` on one object-column cell: NaN prints as "nan". -/
def cellToStr : Option String → String
  | none => "nan"
  | some s => s

/-- Abstraction of Python `str()` on a numeric value.  No claim below evaluates
it (text-to-numeric coercion is only ever exercised on object columns in the
theorems), so the exact float formatting is not reproduced. -/
def numToStr (q : ℚ) : String := toString q

/-- Python `astype(str)` on one numeric-column cell. -/
def numCellToStr : Option ℚ → String
  | none => "nan"
  | some q => numToStr q

/-- src/ferramentas.py lines 113-120: coerce one object column to numeric by
`astype(str)`, strip, drop dots, comma to dot, `pd.to_numeric(errors="coerce")`. -/
def coerceStrCol (vs : List (Option String)) : List (Option ℚ) :=
  vs.map (fun v => parseNum (normalizeStr (cellToStr v)))

/-- src/ferramentas.py line 102: `df.select_dtypes(include="number")` as
(name, values) pairs in column order. -/
def selectNumericPairs (df : Df) : List (String × List (Option ℚ)) :=
  df.cols.filterMap (fun c =>
    match c.data with
    | .nums vs => some (c.name, vs)
    | .strs _ => none)

/-- src/ferramentas.py lines 105-124: the `possiveis_numericas` dict.  Every
column not already in `df_num` (i.e. every object column) is coerced; it is
kept when `conv.notna().sum() > 0`, i.e. at least ONE value coerced. -/
def possiveisNumericas (df : Df) : List (String × List (Option ℚ)) :=
  df.cols.filterMap (fun c =>
    match c.data with
    | .nums _ => none
    | .strs vs =>
      let conv := coerceStrCol vs
      if 0 < conv.countP (fun o => o.isSome) then some (c.name, conv) else none)

/-- src/ferramentas.py lines 126-131: `df_num` after `pd.concat` — the native
numeric columns followed by the successfully coerced object columns. -/
def dfNumCols (df : Df) : List (String × List (Option ℚ)) :=
  selectNumericPairs df ++ possiveisNumericas df

/-- Row count of `df_num` (length of its first column). -/
def dfNumRows (df : Df) : ℕ :=
  match dfNumCols df with
  | [] => 0
  | p :: _ => p.2.length

/-- src/ferramentas.py lines 135-140: the fixed failure message returned when
`df_num.empty`. -/
def msgSemNumericas : String :=
  "Não foi possível gerar estatísticas descritivas numéricas, porque nenhuma coluna foi identificada como numérica neste arquivo. Verifique se as colunas de quantidade/valor estão em formato numérico ou se vêm como texto com vírgula, ponto etc."

/-- One line of the `describe().transpose().to_string()` digest for one
retained numeric column (count, mean, min, max over the non-NaN values;
quartiles and std are omitted from the rendering — no claim depends on the
digest text). -/
def describeCol (p : String × List (Option ℚ)) : String :=
  let vs := p.2.filterMap id
  let meanStr := if vs.length = 0 then "nan" else toString (vs.sum / (vs.length : ℚ))
  let minStr := match vs with | [] => "nan" | v :: t => toString (t.foldl min v)
  let maxStr := match vs with | [] => "nan" | v :: t => toString (t.foldl max v)
  p.1 ++ " count=" ++ toString vs.length ++ " mean=" ++ meanStr ++
    " min=" ++ minStr ++ " max=" ++ maxStr

/-- src/ferramentas.py line 144: the statistics digest handed to the model. -/
def describeDigest (cols : List (String × List (Option ℚ))) : String :=
  String.intercalate "; " (cols.map describeCol)

/-- src/ferramentas.py lines 153-176: the response prompt of the statistics
report (prose abbreviated; it interpolates the question and the digest). -/
def resumoPrompt (pergunta resumo : String) : String :=
  "Você é um analista de dados encarregado de interpretar resultados estatísticos. Pergunta: " ++
    pergunta ++ " Estatísticas descritivas: " ++ resumo

/-- Result of one `resumo_estatistico` execution: the returned text, how many
language-model calls were issued, and the shared DataFrame after execution. -/
structure ResumoResult where
  output : String
  llmCalls : ℕ
  dfAfter : Df
deriving DecidableEq

/-- src/ferramentas.py lines 94-183, `resumo_estatistico`: select numeric
columns, coerce object columns (keeping those with at least one coercible
value), return the fixed message when `df_num.empty`, otherwise hand the
describe digest to the model.  The `try/except ValueError` around `describe`
never fires in this embedding because the embedded describe is total.  The
function never writes to the shared frame, so `dfAfter` is the input frame. -/
def resumo_estatistico (llm : String → String) (pergunta : String) (df : Df) : ResumoResult :=
  if dfNumCols df = [] ∨ dfNumRows df = 0 then
    ⟨msgSemNumericas, 0, df⟩
  else
    ⟨llm (resumoPrompt pergunta (describeDigest (dfNumCols df))), 1, df⟩

/-- `df[col].isnull().sum()` for one column. -/
def nullCountCol (c : Col) : ℕ :=
  match c.data with
  | .nums vs => vs.countP (fun o => o.isNone)
  | .strs vs => vs.countP (fun o => o.isNone)

/-- src/ferramentas.py line 39: per column, the count of non-NaN values whose
`astype(str).strip().lower()` equals "nan". -/
def nanStrCountCol (c : Col) : ℕ :=
  match c.data with
  | .strs vs => vs.countP (fun o =>
      match o with
      | some s => pyLower (pyStrip s) == "nan"
      | none => false)
  | .nums vs => vs.countP (fun o =>
      match o with
      | some q => pyLower (pyStrip (numToStr q)) == "nan"
      | none => false)

/-- Cell of a column at a row index, as a typed value (`none` = NaN or out of
range). -/
def colCellAt (c : Col) (i : ℕ) : Option (ℚ ⊕ String) :=
  match c.data with
  | .nums vs => (vs.getD i none).map Sum.inl
  | .strs vs => (vs.getD i none).map Sum.inr

/-- One row of the DataFrame as a list of typed cells. -/
def rowAt (df : Df) (i : ℕ) : List (Option (ℚ ⊕ String)) :=
  df.cols.map (fun c => colCellAt c i)

/-- Count rows equal to some earlier row (`df.duplicated().sum()`). -/
def dupCountAux (rows seen : List (List (Option (ℚ ⊕ String)))) : ℕ :=
  match rows with
  | [] => 0
  | r :: rest => (if seen.elem r then 1 else 0) + dupCountAux rest (r :: seen)

/-- src/ferramentas.py line 40: `df.duplicated().sum()`. -/
def dupRowCount (df : Df) : ℕ :=
  dupCountAux ((List.range df.nrows).map (rowAt df)) []

/-- Render (name, count) pairs for the prompt. -/
def pairsToStr (l : List (String × ℕ)) : String :=
  String.intercalate ", " (l.map (fun p => p.1 ++ "=" ++ toString p.2))

/-- `df.dtypes` rendering of one column. -/
def dtypeStr (c : Col) : String :=
  match c.data with
  | .nums _ => "number"
  | .strs _ => "object"

/-- src/ferramentas.py lines 44-78: the structural-report prompt (prose
abbreviated; it interpolates the question, shape, dtypes, null counts,
"nan"-string counts and the duplicate-row count — all computed in code). -/
def infoPrompt (pergunta : String) (df : Df) : String :=
  "Você é um analista de dados encarregado de apresentar um resumo informativo. Pergunta: " ++
    pergunta ++ " Dimensões: " ++ toString df.nrows ++ "x" ++ toString df.cols.length ++
    " Colunas: " ++ String.intercalate ", " (df.cols.map (fun c => c.name ++ ":" ++ dtypeStr c)) ++
    " Nulos: " ++ pairsToStr (df.cols.map (fun c => (c.name, nullCountCol c))) ++
    " Strings nan: " ++ pairsToStr (df.cols.map (fun c => (c.name, nanStrCountCol c))) ++
    " Duplicadas: " ++ toString (dupRowCount df)

/-- Result of one `informacoes_dataframe` execution. -/
structure InfoResult where
  output : String
  llmCalls : ℕ
  dfAfter : Df

/-- src/ferramentas.py lines 29-91, `informacoes_dataframe`: collect shape,
dtypes, null counts, "nan"-string counts and duplicate count, then ask the
model for the report prose.  No statement writes to the shared frame. -/
def informacoes_dataframe (llm : String → String) (pergunta : String) (df : Df) : InfoResult :=
  ⟨llm (infoPrompt pergunta df), 1, df⟩

/-- src/App.py line 38: the literal list of cell texts treated as empty. -/
def vaziosSentinelas : List String :=
  ["", "nan", "NaN", "NONE", "None"]

/-- src/App.py lines 35-39: number of non-empty cells of one raw row (cells
arrive as strings, `astype(str)` then `.str.strip()`). -/
def linhaQtdNaoVazios (row : List String) : ℕ :=
  (row.map pyStrip).countP (fun v => !(vaziosSentinelas.contains v))

/-- Python `max(candidatos, key=lambda x: x[1])`: the FIRST pair attaining the
maximal second component. -/
def primeiroMax : List (ℕ × ℕ) → ℕ × ℕ
  | [] => (0, 0)
  | p :: rest => rest.foldl (fun best q => if best.2 < q.2 then q else best) p

/-- src/App.py lines 13-54, `detectar_linha_cabecalho`: over the first 50 raw
rows, return the first row whose non-empty-cell count reaches
`int(0.9 * total_cols)` (embedded as natural floor division; the float product
agrees with the exact value at every width the theorems use); otherwise the
first row attaining the maximal count, provided it reaches
`int(0.6 * total_cols)`; otherwise the first row. -/
def detectar_linha_cabecalho (dfRaw : List (List String)) : ℕ :=
  let totalCols := (dfRaw.headD []).length
  if dfRaw.isEmpty then 0
  else
    let subset := dfRaw.take 50
    let qtds := subset.map linhaQtdNaoVazios
    match qtds.findIdx? (fun q => decide ((9 * totalCols) / 10 ≤ q)) with
    | some i => i
    | none =>
      let melhor := primeiroMax qtds.enum
      if (6 * totalCols) / 10 ≤ melhor.2 then melhor.1 else 0

/-- The chart specification the model is asked to emit as JSON
(src/ferramentas.py lines 224-232): `cfg.get(...)` of an absent or null JSON
field is `none`. -/
structure ChartCfg where
  x_col : Option String
  y_col : Option String
  agg : Option String
  chart_type : Option String
  top_n : Option Int
deriving DecidableEq

/-- Python `x or default` on an optional string: `None` and `""` are falsy. -/
def pyOr (o : Option String) (d : String) : String :=
  match o with
  | none => d
  | some s => if s = "" then d else s

/-- The figure finally drawn: the seaborn call and the data series it receives
(index = group key, value = metric) or, for a histogram, the cleaned numeric
values.  Axis labels, bins and styling are presentation only. -/
inductive Figure where
  | barFig (series : List ((ℚ ⊕ String) × ℚ))
  | lineFig (series : List ((ℚ ⊕ String) × ℚ))
  | histFig (values : List ℚ)
deriving DecidableEq

/-- A Streamlit side effect issued during `gerar_grafico`, in program order. -/
inductive UiEvent where
  | errorMsg (msg : String)
  | textMsg (msg : String)
  | pyplot (fig : Figure)
deriving DecidableEq

/-- Result of one `gerar_grafico` execution: the Streamlit events, the
returned string, and the shared DataFrame after execution. -/
structure GraficoResult where
  events : List UiEvent
  ret : String
  dfAfter : Df
deriving DecidableEq

/-- src/ferramentas.py lines 200-238: the configuration prompt sent to the
model (prose abbreviated; it interpolates the column list and the question). -/
def graficoPrompt (pergunta : String) (df : Df) : String :=
  "Escolha x_col, y_col, agg, chart_type, top_n para um gráfico. Colunas: " ++
    String.intercalate ", " (colNames df) ++ " Pergunta: " ++ pergunta

/-- src/ferramentas.py line 243: the parse-failure banner. -/
def msgCfgParse : String :=
  "Não consegui interpretar a configuração de gráfico retornada pelo modelo."

/-- src/ferramentas.py line 255: unknown x column banner (Python f-string
prints `None` for a null value). -/
def msgXNaoEncontrada (x : Option String) : String :=
  "Coluna para eixo X não encontrada no DataFrame: " ++
    (match x with | none => "None" | some s => s)

/-- src/ferramentas.py line 259: unknown y column banner. -/
def msgYNaoEncontrada (y : String) : String :=
  "Coluna para eixo Y não encontrada no DataFrame: " ++ y

/-- src/ferramentas.py line 319: invalid configuration banner
(agg is "none" but no y column was specified). -/
def msgAggNoneSemY : String :=
  "Configuração de gráfico inválida: agg=\x27none\x27 mas \x27y_col\x27 não foi definida."

/-- The string cells of column `name` after `astype(str)` (`df_plot[y].astype(str)`). -/
def colStrsOf (df : Df) (name : String) : List String :=
  match df.cols.find? (fun c => c.name == name) with
  | some c =>
    match c.data with
    | .strs vs => vs.map cellToStr
    | .nums vs => vs.map numCellToStr
  | none => []

/-- src/ferramentas.py lines 267-274 and 322-329: the normalize-and-coerce
pipeline applied to column `name` of `df_plot`. -/
def coerceColOf (df : Df) (name : String) : List (Option ℚ) :=
  (colStrsOf df name).map (fun s => parseNum (normalizeStr s))

/-- `df_plot[y_col] = pd.to_numeric(serie, errors="coerce")`: in-place column
assignment, making `name` a numeric-dtype column. -/
def setColNums (df : Df) (name : String) (vs : List (Option ℚ)) : Df :=
  ⟨df.cols.map (fun c => if c.name == name then ⟨c.name, .nums vs⟩ else c)⟩

/-- src/ferramentas.py lines 263-274: `df_plot = df.copy()`, then, only when an
y column exists and agg is sum or mean, coerce that column of the COPY to
numeric in place. -/
def coercePlotDf (df : Df) (y_col : Option String) (agg : String) : Df :=
  match y_col with
  | some y =>
    if agg = "sum" ∨ agg = "mean" then setColNums df y (coerceColOf df y) else df
  | none => df

/-- The numeric values of column `name` (used on the already-coerced y column). -/
def colQVals (df : Df) (name : String) : List (Option ℚ) :=
  match df.cols.find? (fun c => c.name == name) with
  | some c =>
    match c.data with
    | .nums vs => vs
    | .strs vs => vs.map (fun o => parseNum (normalizeStr (cellToStr o)))
  | none => []

/-- Insertion into a list sorted by `le` (stable: equal keys keep order). -/
def insereLe {α : Type} (le : α → α → Bool) (a : α) : List α → List α
  | [] => [a]
  | b :: t => if le a b then a :: b :: t else b :: insereLe le a t

/-- Stable insertion sort by `le`.  pandas sorting order among ties is
unspecified (quicksort); the embedding fixes the stable order. -/
def ordenaLe {α : Type} (le : α → α → Bool) : List α → List α
  | [] => []
  | a :: t => insereLe le a (ordenaLe le t)

/-- Strict lexicographic order on character lists. -/
def charsLt : List Char → List Char → Bool
  | [], [] => false
  | [], _ :: _ => true
  | _ :: _, [] => false
  | a :: as, b :: bs => if a < b then true else if b < a then false else charsLt as bs

/-- Lexicographic string comparison (Python string `<`). -/
def strLtB (a b : String) : Bool :=
  charsLt a.toList b.toList

/-- Ascending order on group keys (keys of one column share one constructor). -/
def keyLe (a b : ℚ ⊕ String) : Bool :=
  match a, b with
  | .inl x, .inl y => decide (x ≤ y)
  | .inr x, .inr y => strLtB x y || x == y
  | .inl _, .inr _ => true
  | .inr _, .inl _ => false

/-- Distinct elements of a list, keeping first occurrences, with a seen
accumulator. -/
def dedupFirstAux {α : Type} [DecidableEq α] : List α → List α → List α
  | [], _ => []
  | a :: t, seen =>
    if seen.elem a then dedupFirstAux t seen else a :: dedupFirstAux t (a :: seen)

/-- Distinct elements of a list, keeping first occurrences. -/
def dedupFirst {α : Type} [DecidableEq α] (l : List α) : List α :=
  dedupFirstAux l []

/-- The typed cells of column `name`, in row order. -/
def colTypedCells (df : Df) (name : String) : List (Option (ℚ ⊕ String)) :=
  match df.cols.find? (fun c => c.name == name) with
  | some c =>
    match c.data with
    | .nums vs => vs.map (fun o => o.map Sum.inl)
    | .strs vs => vs.map (fun o => o.map Sum.inr)
  | none => []

/-- `groupby(x_col)` keys: the distinct non-NaN values of the x column, sorted
ascending (pandas sorts group keys and drops NaN keys). -/
def groupKeys (df : Df) (x : String) : List (ℚ ⊕ String) :=
  ordenaLe keyLe (dedupFirst ((colTypedCells df x).filterMap id))

/-- Row indices belonging to the group of key `k` in column `x`. -/
def groupRowIdx (df : Df) (x : String) (k : ℚ ⊕ String) : List ℕ :=
  (List.range df.nrows).filter
    (fun i =>
      match df.cols.find? (fun c => c.name == x) with
      | some c => colCellAt c i == some k
      | none => false)

/-- `groupby(x_col)[y_col].agg(agg)`: per group key, the sum or mean of the
non-NaN y values (pandas skips NaN; the mean of an all-NaN group, NaN in
pandas, is embedded as 0 — no theorem evaluates that corner). -/
def aggSeries (df : Df) (x y agg : String) : List ((ℚ ⊕ String) × ℚ) :=
  (groupKeys df x).map (fun k =>
    let ys := (groupRowIdx df x k).filterMap (fun i => (colQVals df y).getD i none)
    (k, if agg = "sum" then ys.sum
        else if ys.length = 0 then 0 else ys.sum / (ys.length : ℚ)))

/-- `groupby(x_col).size()`: rows per group key. -/
def countSeries (df : Df) (x : String) : List ((ℚ ⊕ String) × ℚ) :=
  (groupKeys df x).map (fun k => (k, ((groupRowIdx df x k).length : ℚ)))

/-- `.sort_values(ascending=False)` on an aggregated series. -/
def sortDescByVal (s : List ((ℚ ⊕ String) × ℚ)) : List ((ℚ ⊕ String) × ℚ) :=
  ordenaLe (fun a b => decide (b.2 ≤ a.2)) s

/-- src/ferramentas.py lines 276-291: the `dados` series — sum/mean over the y
column when requested with an y column present, else group sizes for count,
else `None`; then the positive-int `top_n` head truncation. -/
def montarDados (df : Df) (x : String) (y_col : Option String) (agg : String)
    (top_n : Option Int) : Option (List ((ℚ ⊕ String) × ℚ)) :=
  let dados : Option (List ((ℚ ⊕ String) × ℚ)) :=
    match y_col with
    | some y =>
      if agg = "sum" ∨ agg = "mean" then some (sortDescByVal (aggSeries df x y agg))
      else if agg = "count" then some (sortDescByVal (countSeries df x))
      else none
    | none =>
      if agg = "count" then some (sortDescByVal (countSeries df x))
      else none
  match dados, top_n with
  | some s, some n => if 0 < n then some (s.take n.toNat) else some s
  | d, _ => d

/-- src/ferramentas.py lines 297-314: chart-kind dispatch over an aggregated
series; anything that is not bar/barplot or line/lineplot falls back to a bar
plot. -/
def figuraAgregada (chart_type : String) (series : List ((ℚ ⊕ String) × ℚ)) : Figure :=
  if chart_type = "bar" ∨ chart_type = "barplot" then .barFig series
  else if chart_type = "line" ∨ chart_type = "lineplot" then .lineFig series
  else .barFig series

/-- src/ferramentas.py lines 262-344: the body of `gerar_grafico` after the
specification was parsed and its columns validated.  The only in-place write,
the y-column coercion, targets `df_plot`, the private copy built by
`df.copy()`; the shared frame is returned unchanged in `dfAfter`. -/
def gerarGraficoValido (df : Df) (x : String) (y_col : Option String)
    (agg chart_type : String) (top_n : Option Int) : GraficoResult :=
  let df_plot := coercePlotDf df y_col agg
  match montarDados df_plot x y_col agg top_n with
  | some series => ⟨[.pyplot (figuraAgregada chart_type series)], "", df⟩
  | none =>
    match y_col with
    | none => ⟨[.errorMsg msgAggNoneSemY], "", df⟩
    | some y =>
      ⟨[.pyplot (.histFig ((coerceColOf df_plot y).filterMap id))], "", df⟩

/-- src/ferramentas.py lines 258-260: the y-column check
(`if y_col is not None and y_col not in df.columns`). -/
def gerarGraficoComY (df : Df) (x y : String) (agg chart_type : String)
    (top_n : Option Int) : GraficoResult :=
  if y ∉ colNames df then ⟨[.errorMsg (msgYNaoEncontrada y)], "", df⟩
  else gerarGraficoValido df x (some y) agg chart_type top_n

/-- src/ferramentas.py lines 254-260, continued: with a present x column,
check it against `df.columns`, then check the y column when one is named. -/
def gerarGraficoComX (df : Df) (x : String) (y_col : Option String)
    (agg chart_type : String) (top_n : Option Int) : GraficoResult :=
  if x ∉ colNames df then ⟨[.errorMsg (msgXNaoEncontrada (some x))], "", df⟩
  else
    match y_col with
    | some y => gerarGraficoComY df x y agg chart_type top_n
    | none => gerarGraficoValido df x none agg chart_type top_n

/-- src/ferramentas.py lines 247-260: read the specification fields with their
Python defaults (`agg or "sum"`, `chart_type or "bar"`, lowercased) and
validate the column names before touching the data (`None not in df.columns`
is the same x error). -/
def gerarGraficoCfg (df : Df) (_pergunta : String) (cfg : ChartCfg) : GraficoResult :=
  let agg := pyLower (pyOr cfg.agg "sum")
  let chart_type := pyLower (pyOr cfg.chart_type "bar")
  match cfg.x_col with
  | none => ⟨[.errorMsg (msgXNaoEncontrada none)], "", df⟩
  | some x => gerarGraficoComX df x cfg.y_col agg chart_type cfg.top_n

/-- src/ferramentas.py lines 187-344, `gerar_grafico`.  The oracle `llmCfg`
models the model completion composed with `json.loads`: `Except.error raw` is
a `json.JSONDecodeError` on the raw completion `raw`, in which case the tool
shows `st.error` and `st.text(raw)` and returns the empty string (lines
240-245); otherwise the parsed specification drives the plot. -/
def gerar_grafico (llmCfg : String → Except String ChartCfg) (df : Df)
    (pergunta : String) : GraficoResult :=
  match llmCfg (graficoPrompt pergunta df) with
  | .error raw => ⟨[.errorMsg msgCfgParse, .textMsg raw], "", df⟩
  | .ok cfg => gerarGraficoCfg df pergunta cfg

/-- A value a snippet can evaluate to: the DataFrame, a string, or a module
object. -/
inductive PyVal where
  | dfVal (df : Df)
  | strVal (s : String)
  | modVal (m : String)
deriving DecidableEq

/-- Host resources outside the evaluation context that a snippet may touch. -/
inductive HostEffect where
  | envAccess (varName : String)
  | fsAccess (path : String)
  | netAccess (host : String)
deriving DecidableEq

/-- A miniature of the snippets the Python tool receives: read a bound
variable, import a module via the ambient `__import__` builtin, read an
environment variable (`os.environ[...]`), read a file (`open(p).read()`),
fetch a URL. -/
inductive PySnippet where
  | readVar (name : String)
  | importMod (module : String)
  | envRead (varName : String)
  | fileRead (path : String)
  | urlFetch (host : String)
deriving DecidableEq

/-- Outcome of evaluating one snippet: the value (if any) and the host
resources touched, in order. -/
structure PyOutcome where
  result : Option PyVal
  effects : List HostEffect
deriving DecidableEq

/-- Modelled from the library: `langchain_experimental.tools.PythonAstREPLTool`,
constructed in src/ferramentas.py line 376 as
`PythonAstREPLTool(locals={"df": df})`.  The tool parses the snippet as a
Python AST and evaluates it with the supplied locals and the unrestricted
interpreter builtins; it applies no sandbox, so imports, environment reads,
file reads and network fetches all succeed (the library itself warns that the
tool executes arbitrary code on the host).  `host` is the oracle for ambient
host state (environment variables, file contents, responses). -/
def pythonAstReplRun (locals : List (String × PyVal)) (host : String → String)
    (snippet : PySnippet) : PyOutcome :=
  match snippet with
  | .readVar n => ⟨(locals.find? (fun p => p.1 == n)).map Prod.snd, []⟩
  | .importMod m => ⟨some (.modVal m), []⟩
  | .envRead v => ⟨some (.strVal (host v)), [.envAccess v]⟩
  | .fileRead p => ⟨some (.strVal (host p)), [.fsAccess p]⟩
  | .urlFetch h => ⟨some (.strVal (host h)), [.netAccess h]⟩

/-- The locals dictionary the tool is constructed with: `{"df": df}`. -/
def ferramentaPythonLocals (df : Df) : List (String × PyVal) :=
  [("df", .dfVal df)]

/-- A registered langchain `Tool` as the loop sees it: a name, a text-to-text
run function, and the `return_direct` flag. -/
structure ToolSpec where
  name : String
  run : String → String
  returnDirect : Bool

/-- src/ferramentas.py lines 347-387, `criar_ferramentas`: the fixed, ordered
registry of the four tools.  `llm` is the chat-model oracle, `llmCfg` the
chart-specification oracle (completion plus `json.loads`), and `pyRepl` the
textual behaviour of the Python REPL tool (its observation strings are opaque
to the routing loop; its sandboxing properties are modelled separately by
`pythonAstReplRun`).  The first three tools carry `return_direct=True`. -/
def criar_ferramentas (llm : String → String) (llmCfg : String → Except String ChartCfg)
    (pyRepl : String → String) (df : Df) : List ToolSpec :=
  [⟨"Informações Dataframe", fun pergunta => (informacoes_dataframe llm pergunta df).output, true⟩,
   ⟨"Resumo Estatístico", fun pergunta => (resumo_estatistico llm pergunta df).output, true⟩,
   ⟨"Gerar Gráfico", fun pergunta => (gerar_grafico llmCfg df pergunta).ret, true⟩,
   ⟨"Códigos Python", fun codigo => pyRepl codigo, false⟩]

/-- One parsed model response inside the routing loop: a final answer, an
action (tool name and input), or a malformed response. -/
inductive ModelOut where
  | final (text : String)
  | action (name input : String)
  | malformed (raw : String)
deriving DecidableEq

/-- Terminal state of the routing loop. -/
inductive LoopState where
  | done (answer : String)
  | capped (answer : String)
  | failed (text : String)
deriving DecidableEq

/-- Result of one `AgentExecutor.invoke`: the terminal state, the names of the
capabilities actually executed in order, and the number of model calls made. -/
structure LoopResult where
  outcome : LoopState
  executed : List String
  modelCalls : ℕ
deriving DecidableEq

/-- Observation fed back after a response the parser could not read. -/
def obsRespostaInvalida : String :=
  "Resposta inválida, use o formato Thought/Action/Final Answer."

/-- Observation fed back when the routed name is not a registered tool. -/
def obsFerramentaDesconhecida (nm : String) : String :=
  nm ++ " não é uma ferramenta registrada."

/-- Modelled from the spec: the Routing and Execution Loop of section 4.6
(the `AgentExecutor` built in src/App.py lines 197-202 is library code, not in
src/).  Per iteration: call the model (a scripted oracle of the call index and
the question); a final answer ends in DONE; a malformed response is recovered
into a corrective observation when `handleParse` (the executor is built with
`handle_parsing_errors=True`) and otherwise ends in FAILED; an action on an
unregistered name feeds an unknown-capability observation back; an action on a
registered tool executes it — a direct-return tool ends the loop in DONE with
the raw tool output, otherwise the observation is fed back.  When the
iteration budget is exhausted the loop ends in CAPPED with an answer forced
from the last observation. -/
def runLoopAux (tools : List ToolSpec) (model : ℕ → String → ModelOut)
    (handleParse : Bool) (question : String) :
    ℕ → ℕ → List String → String → LoopResult
  | 0, calls, execs, lastObs => ⟨.capped lastObs, execs.reverse, calls⟩
  | fuel + 1, calls, execs, _ =>
    match model calls question with
    | .final t => ⟨.done t, execs.reverse, calls + 1⟩
    | .malformed raw =>
      if handleParse then
        runLoopAux tools model handleParse question fuel (calls + 1) execs obsRespostaInvalida
      else ⟨.failed raw, execs.reverse, calls + 1⟩
    | .action nm inp =>
      match tools.find? (fun t => t.name == nm) with
      | none =>
        runLoopAux tools model handleParse question fuel (calls + 1) execs
          (obsFerramentaDesconhecida nm)
      | some t =>
        if t.returnDirect then ⟨.done (t.run inp), (nm :: execs).reverse, calls + 1⟩
        else
          runLoopAux tools model handleParse question fuel (calls + 1) (nm :: execs)
            (t.run inp)

/-- Modelled from the spec: run the loop with a fresh conversation state. -/
def runLoop (tools : List ToolSpec) (model : ℕ → String → ModelOut)
    (handleParse : Bool) (maxIterations : ℕ) (question : String) : LoopResult :=
  runLoopAux tools model handleParse question maxIterations 0 [] ""

/-- src/App.py line 202: `max_iterations=4`. -/
def maxIterationsApp : ℕ := 4

/-- src/App.py lines 197-202 and the `orquestrador.invoke` call sites: the
executor over the four registered tools, with `handle_parsing_errors=True` and
`max_iterations=4`. -/
def orquestradorInvoke (llm : String → String) (llmCfg : String → Except String ChartCfg)
    (pyRepl : String → String) (df : Df) (model : ℕ → String → ModelOut)
    (input : String) : LoopResult :=
  runLoop (criar_ferramentas llm llmCfg pyRepl df) model true maxIterationsApp input

/-- src/App.py line 212: the fixed input of the structural-report button. -/
def inputRelatorioGeral : String :=
  "Quero um relatório com informações sobre os dados"

/-- src/App.py line 240: the fixed input of the statistics-report button. -/
def inputRelatorioEstatisticas : String :=
  "Quero um relatório de estatísticas descritivas"

/-- src/App.py lines 209-213: the structural-report quick action invokes the
orchestrator on its fixed input string. -/
def quickActionInformacoes (llm : String → String) (llmCfg : String → Except String ChartCfg)
    (pyRepl : String → String) (df : Df) (model : ℕ → String → ModelOut) : LoopResult :=
  orquestradorInvoke llm llmCfg pyRepl df model inputRelatorioGeral

/-- src/App.py lines 237-241: the statistics-report quick action invokes the
orchestrator on its fixed input string. -/
def quickActionEstatisticas (llm : String → String) (llmCfg : String → Except String ChartCfg)
    (pyRepl : String → String) (df : Df) (model : ℕ → String → ModelOut) : LoopResult :=
  orquestradorInvoke llm llmCfg pyRepl df model inputRelatorioEstatisticas

/-! Concrete fixtures used by witnesses and counterexamples. -/

/-- A constant chat-model oracle. -/
def llmOracle0 : String → String := fun _ => "resposta do modelo"

/-- A constant Python-REPL observation oracle. -/
def pyOracle0 : String → String := fun _ => "observacao"

/-- A chart-specification oracle whose completion is not valid JSON. -/
def cfgOracleErro : String → Except String ChartCfg := fun _ => Except.error "resposta sem json"

/-- A small two-column text DataFrame. -/
def dfFix : Df :=
  ⟨[⟨"a", .strs [some "r", some "s", some "r"]⟩, ⟨"b", .strs [some "1", some "2", some "x"]⟩]⟩

/-- A DataFrame with no numeric and no coercible column. -/
def dfSemNum : Df := ⟨[⟨"t", .strs [some "x", none]⟩]⟩

/-- A DataFrame with one native numeric column and one text column of which
only one of three non-null values (33 percent) coerces to a number. -/
def dfNumTexto : Df :=
  ⟨[⟨"a", .nums [some 1, some 2, some 3]⟩, ⟨"b", .strs [some "x", some "y", some "5"]⟩]⟩

/-- One garbage row of the synthetic header-detection table (1 of 3 cells
non-empty, below both thresholds). -/
def linhaLixo : List String := ["lixo", "", ""]

/-- The clean, fully populated header row of the synthetic table. -/
def linhaCabecalho : List String := ["colA", "colB", "colC"]

/-- Synthetic raw table: `k` garbage rows, then the clean header row, then two
data rows. -/
def tabelaSintetica (k : ℕ) : List (List String) :=
  List.replicate k linhaLixo ++ [linhaCabecalho] ++ [["1", "2", "3"], ["4", "5", "6"]]

/-- A specification oracle naming an x column absent from `dfFix`. -/
def cfgOracleXRuim : String → Except String ChartCfg :=
  fun _ => Except.ok ⟨some "zz", none, none, none, none⟩

/-- A specification oracle with aggregation "none" over valid columns of `dfFix`. -/
def cfgOracleAggNone : String → Except String ChartCfg :=
  fun _ => Except.ok ⟨some "a", some "b", some "none", some "line", none⟩

/-- A scripted model that answers directly, with no action. -/
def mRespostaDireta : ℕ → String → ModelOut := fun _ _ => .final "Segue a resposta"

/-- A scripted model that always routes to the statistics tool. -/
def mEscolheResumo : ℕ → String → ModelOut := fun _ _ => .action "Resumo Estatístico" "estat"

/-- A scripted model that always routes to the structural-report tool. -/
def mEscolheInformacoes : ℕ → String → ModelOut :=
  fun _ _ => .action "Informações Dataframe" ""

/-- A scripted model that always names an unregistered tool. -/
def mFerramentaInexistente : ℕ → String → ModelOut :=
  fun _ _ => .action "Ferramenta Inexistente" "x"

/-- A constant ambient host-state oracle. -/
def hostOracle0 : String → String := fun _ => "conteudo"

/-! Theorems.  One theorem per claim of the specification, with witnesses and
counterexamples as separate closed theorems. -/

/-- Claim C6: for every dataframe in which no column (native or coerced)
qualifies as numeric, `resumo_estatistico` returns the fixed explanatory
failure message and makes no language-model call. -/
theorem resumo_sem_numericas_mensagem_fixa (llm : String → String) (pergunta : String)
    (df : Df) (h : dfNumCols df = []) :
    (resumo_estatistico llm pergunta df).output = msgSemNumericas ∧
    (resumo_estatistico llm pergunta df).llmCalls = 0 := by
  rw [resumo_estatistico, if_pos (Or.inl h)]
  exact ⟨rfl, rfl⟩

/-- Witness for C6: a concrete dataframe with no coercible column, evaluated
through the theorem. -/
theorem resumo_sem_numericas_witness :
    dfNumCols dfSemNum = [] ∧
    (resumo_estatistico llmOracle0 "quero estatísticas" dfSemNum).output = msgSemNumericas ∧
    (resumo_estatistico llmOracle0 "quero estatísticas" dfSemNum).llmCalls = 0 := by
  have h := resumo_sem_numericas_mensagem_fixa llmOracle0 "quero estatísticas" dfSemNum (by decide)
  exact ⟨by decide, h.1, h.2⟩

/-- Claim C7: header detection scores the first 50 candidate rows by their
non-empty-cell count, picking the first row clearing the 90 percent threshold,
else the best row clearing 60 percent, else the first row; on a synthetic
table with K garbage rows, then a clean fully populated header row, then data,
it returns exactly the header row index K, for K in 0, 1, 5, 14. -/
theorem deteccao_cabecalho_sintetica (k : ℕ) (h : k = 0 ∨ k = 1 ∨ k = 5 ∨ k = 14) :
    detectar_linha_cabecalho (tabelaSintetica k) = k := by
  rcases h with rfl | rfl | rfl | rfl <;> decide

/-- Witness for C7 at K = 5. -/
theorem deteccao_cabecalho_witness :
    detectar_linha_cabecalho (tabelaSintetica 5) = 5 :=
  deteccao_cabecalho_sintetica 5 (by decide)

/-- Counterexample to claim C4 as stated.  The claim says (a) coercion is
attempted only when no natively numeric column exists, so with a native
numeric column present the retained columns are exactly the native ones, and
(b) a text column is retained iff at least 50 percent of its non-null values
coerce.  On `dfNumTexto` both parts fail: column "a" is natively numeric, yet
the text column "b" is still coerced and retained although only 1 of its 3
non-null values (33 percent) coerces. -/
theorem coercao_counterexample :
    ¬ (∀ df : Df,
        (selectNumericPairs df ≠ [] →
          (dfNumCols df).map Prod.fst = (selectNumericPairs df).map Prod.fst) ∧
        (∀ nome vs, Col.mk nome (ColData.strs vs) ∈ df.cols →
          (nome ∈ (dfNumCols df).map Prod.fst ↔
            vs.countP (fun o => o.isSome) ≤ 2 * (coerceStrCol vs).countP (fun o => o.isSome)))) := by
  intro h
  have h1 := (h dfNumTexto).1 (by decide)
  exact absurd h1 (by decide)

/-- Claim C4 as amended: text-to-numeric coercion is attempted for every
column that is not natively numeric, regardless of whether native numeric
columns exist, and a text column is retained for statistics iff at least one
(strictly more than zero) of its values coerces successfully after separator
normalization.  Stated as: under the unique-column-name invariant, a text
column enters `df_num` exactly when its coercion count is positive — with no
side condition about native numeric columns. -/
theorem coercao_sempre_e_limiar_um (df : Df) (hnodup : (colNames df).Nodup)
    (nome : String) (vs : List (Option String))
    (hmem : Col.mk nome (ColData.strs vs) ∈ df.cols) :
    (nome, coerceStrCol vs) ∈ dfNumCols df ↔
      0 < (coerceStrCol vs).countP (fun o => o.isSome) := by
  constructor
  · intro hin
    rcases List.mem_append.mp hin with hsel | hpos
    · exfalso
      rcases List.mem_filterMap.mp hsel with ⟨c, hcmem, hc⟩
      rcases hdata : c.data with ws | ws
      · rw [hdata] at hc
        have hc' : some (c.name, ws) = some (nome, coerceStrCol vs) := hc
        have hname : c.name = nome := by
          injection hc' with h
          exact congrArg Prod.fst h
        have hnodup' : (df.cols.map Col.name).Nodup := hnodup
        have hceq : c = Col.mk nome (ColData.strs vs) :=
          List.inj_on_of_nodup_map hnodup' hcmem hmem hname
        rw [hceq] at hdata
        exact ColData.noConfusion hdata
      · rw [hdata] at hc
        have hc' : (none : Option (String × List (Option ℚ))) = some (nome, coerceStrCol vs) := hc
        exact Option.noConfusion hc'
    · rcases List.mem_filterMap.mp hpos with ⟨c, hcmem, hc⟩
      rcases hdata : c.data with ws | ws
      · rw [hdata] at hc
        have hc' : (none : Option (String × List (Option ℚ))) = some (nome, coerceStrCol vs) := hc
        exact Option.noConfusion hc'
      · rw [hdata] at hc
        have hc' : (if 0 < (coerceStrCol ws).countP (fun o => o.isSome)
            then some (c.name, coerceStrCol ws) else none) = some (nome, coerceStrCol vs) := hc
        by_cases hp : 0 < (coerceStrCol ws).countP (fun o => o.isSome)
        · rw [if_pos hp] at hc'
          injection hc' with h
          have hvals : coerceStrCol ws = coerceStrCol vs := congrArg Prod.snd h
          rw [hvals] at hp
          exact hp
        · rw [if_neg hp] at hc'
          exact Option.noConfusion hc'
  · intro hp
    refine List.mem_append.mpr (Or.inr (List.mem_filterMap.mpr ⟨_, hmem, ?_⟩))
    show (if 0 < (coerceStrCol vs).countP (fun o => o.isSome)
          then some (nome, coerceStrCol vs) else none) = some (nome, coerceStrCol vs)
    rw [if_pos hp]

/-- Witness for the amended C4: in `dfNumTexto` a native numeric column "a"
exists, yet the text column "b" (one coercible value out of three) is still
retained, via the theorem. -/
theorem coercao_sempre_e_limiar_um_witness :
    ("b", coerceStrCol [some "x", some "y", some "5"]) ∈ dfNumCols dfNumTexto ∧
    selectNumericPairs dfNumTexto ≠ [] := by
  refine ⟨?_, by decide⟩
  exact (coercao_sempre_e_limiar_um dfNumTexto (by decide) "b"
    [some "x", some "y", some "5"] (by decide)).mpr (by decide)

/-- The valid-specification body of the chart tool never touches the shared
frame: its in-place write targets the private copy only. -/
lemma gerarGraficoValido_dfAfter (d : Df) (x : String) (ycol : Option String)
    (agg ct : String) (tn : Option Int) :
    (gerarGraficoValido d x ycol agg ct tn).dfAfter = d := by
  simp only [gerarGraficoValido]
  rcases hm : montarDados (coercePlotDf d ycol agg) x ycol agg tn with _ | s
  · rcases ycol with _ | y <;> simp only [hm]
  · simp only [hm]

/-- The y-column check of the chart tool never touches the shared frame. -/
lemma gerarGraficoComY_dfAfter (d : Df) (x y : String) (agg ct : String) (tn : Option Int) :
    (gerarGraficoComY d x y agg ct tn).dfAfter = d := by
  rw [gerarGraficoComY]
  by_cases hym : y ∉ colNames d
  · rw [if_pos hym]
  · rw [if_neg hym]
    exact gerarGraficoValido_dfAfter ..

/-- The validation layer of the chart tool never touches the shared frame. -/
lemma gerarGraficoComX_dfAfter (d : Df) (x : String) (ycol : Option String)
    (agg ct : String) (tn : Option Int) :
    (gerarGraficoComX d x ycol agg ct tn).dfAfter = d := by
  rw [gerarGraficoComX.eq_def]
  by_cases hxm : x ∉ colNames d
  · rw [if_pos hxm]
  · rw [if_neg hxm]
    rcases ycol with _ | y
    · exact gerarGraficoValido_dfAfter ..
    · exact gerarGraficoComY_dfAfter ..

/-- Claim C9: no capability execution mutates the shared dataframe in place:
after `informacoes_dataframe`, `resumo_estatistico` or `gerar_grafico`, the
dataframe passed in is unchanged (the chart tool writes only to its private
`df.copy()`). -/
theorem capacidades_preservam_df (llm : String → String)
    (llmCfg : String → Except String ChartCfg) (pergunta : String) (df : Df) :
    (informacoes_dataframe llm pergunta df).dfAfter = df ∧
    (resumo_estatistico llm pergunta df).dfAfter = df ∧
    (gerar_grafico llmCfg df pergunta).dfAfter = df := by
  refine ⟨rfl, ?_, ?_⟩
  · rw [resumo_estatistico]
    split <;> rfl
  · rw [gerar_grafico]
    rcases hc : llmCfg (graficoPrompt pergunta df) with raw | cfg
    · rfl
    · simp only [gerarGraficoCfg]
      rcases hx : cfg.x_col with _ | x
      · rfl
      · exact gerarGraficoComX_dfAfter ..

/-- Output contract of the valid-specification body: the returned string is
always empty, and a render event occurs exactly when no error event does. -/
lemma gerarGraficoValido_contrato (d : Df) (x : String) (ycol : Option String)
    (agg ct : String) (tn : Option Int) :
    (gerarGraficoValido d x ycol agg ct tn).ret = "" ∧
    ((∃ f, UiEvent.pyplot f ∈ (gerarGraficoValido d x ycol agg ct tn).events) ↔
      ¬ ∃ m, UiEvent.errorMsg m ∈ (gerarGraficoValido d x ycol agg ct tn).events) := by
  simp only [gerarGraficoValido]
  rcases hm : montarDados (coercePlotDf d ycol agg) x ycol agg tn with _ | s
  · rcases ycol with _ | y <;> simp [hm]
  · simp [hm]

/-- Output contract of the y-column check layer. -/
lemma gerarGraficoComY_contrato (d : Df) (x y : String) (agg ct : String) (tn : Option Int) :
    (gerarGraficoComY d x y agg ct tn).ret = "" ∧
    ((∃ f, UiEvent.pyplot f ∈ (gerarGraficoComY d x y agg ct tn).events) ↔
      ¬ ∃ m, UiEvent.errorMsg m ∈ (gerarGraficoComY d x y agg ct tn).events) := by
  rw [gerarGraficoComY]
  by_cases hym : y ∉ colNames d
  · rw [if_pos hym]
    exact ⟨rfl, by simp⟩
  · rw [if_neg hym]
    exact gerarGraficoValido_contrato ..

/-- Output contract of the x-column check layer. -/
lemma gerarGraficoComX_contrato (d : Df) (x : String) (ycol : Option String)
    (agg ct : String) (tn : Option Int) :
    (gerarGraficoComX d x ycol agg ct tn).ret = "" ∧
    ((∃ f, UiEvent.pyplot f ∈ (gerarGraficoComX d x ycol agg ct tn).events) ↔
      ¬ ∃ m, UiEvent.errorMsg m ∈ (gerarGraficoComX d x ycol agg ct tn).events) := by
  rw [gerarGraficoComX.eq_def]
  by_cases hxm : x ∉ colNames d
  · rw [if_pos hxm]
    exact ⟨rfl, by simp⟩
  · rw [if_neg hxm]
    rcases ycol with _ | y
    · exact gerarGraficoValido_contrato ..
    · exact gerarGraficoComY_contrato ..

/-- Counterexample to claim C5 as stated.  The claim says the return value is
a NON-EMPTY error string whenever specification parsing fails.  On a model
completion that is not valid JSON the tool returns the EMPTY string (the
failure is shown only through `st.error`/`st.text` UI events) and renders
nothing, so the returned text is empty on a parse failure. -/
theorem grafico_retorno_counterexample :
    (gerar_grafico cfgOracleErro dfFix "pergunta").ret = "" ∧
    (∃ m, UiEvent.errorMsg m ∈ (gerar_grafico cfgOracleErro dfFix "pergunta").events) ∧
    (∀ f, UiEvent.pyplot f ∉ (gerar_grafico cfgOracleErro dfFix "pergunta").events) := by
  have he : (gerar_grafico cfgOracleErro dfFix "pergunta").events =
      [UiEvent.errorMsg msgCfgParse, UiEvent.textMsg "resposta sem json"] := rfl
  refine ⟨rfl, ⟨msgCfgParse, by rw [he]; simp⟩, ?_⟩
  intro f hf
  rw [he] at hf
  simp at hf

/-- Claim C5 as amended: the return value of `gerar_grafico` is ALWAYS the
empty string; parse and validation failures are surfaced to the user as
Streamlit error events (`st.error`), not through the returned text, and a
figure is rendered exactly when no error event was issued. -/
theorem grafico_retorno_vazio_erros_na_ui (llmCfg : String → Except String ChartCfg)
    (df : Df) (pergunta : String) :
    (gerar_grafico llmCfg df pergunta).ret = "" ∧
    ((∃ f, UiEvent.pyplot f ∈ (gerar_grafico llmCfg df pergunta).events) ↔
      ¬ ∃ m, UiEvent.errorMsg m ∈ (gerar_grafico llmCfg df pergunta).events) := by
  rw [gerar_grafico]
  rcases hc : llmCfg (graficoPrompt pergunta df) with raw | cfg
  · exact ⟨rfl, by simp⟩
  · simp only [gerarGraficoCfg]
    rcases hx : cfg.x_col with _ | x
    · exact ⟨rfl, by simp⟩
    · exact gerarGraficoComX_contrato ..

/-- On a bad x column or a named bad y column, the x/y validation layer
reports an error event and issues no render event. -/
lemma gerarGraficoComX_erro_sem_render (d : Df) (x : String) (ycol : Option String)
    (agg ct : String) (tn : Option Int)
    (hbad : x ∉ colNames d ∨ ∃ y, ycol = some y ∧ y ∉ colNames d) :
    (∃ m, UiEvent.errorMsg m ∈ (gerarGraficoComX d x ycol agg ct tn).events) ∧
    (∀ f, UiEvent.pyplot f ∉ (gerarGraficoComX d x ycol agg ct tn).events) := by
  by_cases hxm : x ∉ colNames d
  · have hx : gerarGraficoComX d x ycol agg ct tn =
        ⟨[UiEvent.errorMsg (msgXNaoEncontrada (some x))], "", d⟩ := by
      rw [gerarGraficoComX.eq_def, if_pos hxm]
    rw [hx]
    exact ⟨by simp, by intro f hf; simp at hf⟩
  · rcases hbad with hxbad | ⟨y, hyeq, hynot⟩
    · exact absurd hxbad hxm
    · rw [hyeq]
      have hy : gerarGraficoComX d x (some y) agg ct tn =
          ⟨[UiEvent.errorMsg (msgYNaoEncontrada y)], "", d⟩ := by
        rw [gerarGraficoComX.eq_def, if_neg hxm]
        show gerarGraficoComY d x y agg ct tn = _
        rw [gerarGraficoComY, if_pos hynot]
      rw [hy]
      exact ⟨by simp, by intro f hf; simp at hf⟩

/-- Claim C8: for every model-returned chart specification whose x column or
named y column is absent from the dataframe, the chart capability yields an
error event and does not attempt to render any figure. -/
theorem grafico_coluna_desconhecida_erro (llmCfg : String → Except String ChartCfg)
    (df : Df) (pergunta : String) (cfg : ChartCfg)
    (hcfg : llmCfg (graficoPrompt pergunta df) = Except.ok cfg)
    (hbad : (∃ x, cfg.x_col = some x ∧ x ∉ colNames df) ∨
            (∃ y, cfg.y_col = some y ∧ y ∉ colNames df)) :
    (∃ m, UiEvent.errorMsg m ∈ (gerar_grafico llmCfg df pergunta).events) ∧
    (∀ f, UiEvent.pyplot f ∉ (gerar_grafico llmCfg df pergunta).events) := by
  have hred : gerar_grafico llmCfg df pergunta = gerarGraficoCfg df pergunta cfg := by
    rw [gerar_grafico, hcfg]
  rw [hred]
  simp only [gerarGraficoCfg]
  rcases hx : cfg.x_col with _ | x
  · exact ⟨by simp, by intro f hf; simp at hf⟩
  · refine gerarGraficoComX_erro_sem_render df x cfg.y_col _ _ _ ?_
    rcases hbad with ⟨x', hx', hxnot⟩ | ⟨y, hy, hynot⟩
    · rw [hx] at hx'
      injection hx' with hxx
      rw [hxx]
      exact Or.inl hxnot
    · exact Or.inr ⟨y, hy, hynot⟩

/-- Witness for C8: a specification naming the absent x column "zz" over
`dfFix`, via the theorem. -/
theorem grafico_coluna_desconhecida_witness :
    (∃ m, UiEvent.errorMsg m ∈ (gerar_grafico cfgOracleXRuim dfFix "pergunta").events) ∧
    (∀ f, UiEvent.pyplot f ∉ (gerar_grafico cfgOracleXRuim dfFix "pergunta").events) :=
  grafico_coluna_desconhecida_erro cfgOracleXRuim dfFix "pergunta"
    ⟨some "zz", none, none, none, none⟩ rfl (Or.inl ⟨"zz", rfl, by decide⟩)

/-- The no-aggregation branch with a missing y column: error, no render. -/
lemma gerarGraficoValido_none_sem_y (d : Df) (x ct : String) (tn : Option Int) :
    gerarGraficoValido d x none "none" ct tn =
      ⟨[UiEvent.errorMsg msgAggNoneSemY], "", d⟩ := rfl

/-- The no-aggregation branch with a y column: a histogram of the coerced
y-column values, whatever the requested chart kind. -/
lemma gerarGraficoValido_none_com_y (d : Df) (x y ct : String) (tn : Option Int) :
    gerarGraficoValido d x (some y) "none" ct tn =
      ⟨[UiEvent.pyplot (Figure.histFig ((coerceColOf d y).filterMap id))], "", d⟩ := rfl

/-- Claim C10: with aggregation "none", a null y column makes the chart tool
report an error and return without rendering, and a present (valid) y column
makes the no-aggregation branch render a histogram of the coerced y-column
values regardless of the requested chart kind (the histogram data comes from
the y column, never the x column). -/
theorem grafico_agg_none_comportamento (llmCfg : String → Except String ChartCfg)
    (df : Df) (pergunta : String) (cfg : ChartCfg)
    (hcfg : llmCfg (graficoPrompt pergunta df) = Except.ok cfg)
    (hagg : pyLower (pyOr cfg.agg "sum") = "none") :
    (cfg.y_col = none →
      (∃ m, UiEvent.errorMsg m ∈ (gerar_grafico llmCfg df pergunta).events) ∧
      (∀ f, UiEvent.pyplot f ∉ (gerar_grafico llmCfg df pergunta).events)) ∧
    (∀ x y, cfg.x_col = some x → x ∈ colNames df → cfg.y_col = some y → y ∈ colNames df →
      (gerar_grafico llmCfg df pergunta).events =
        [UiEvent.pyplot (Figure.histFig ((coerceColOf df y).filterMap id))]) := by
  have hred : gerar_grafico llmCfg df pergunta = gerarGraficoCfg df pergunta cfg := by
    rw [gerar_grafico, hcfg]
  rw [hred]
  simp only [gerarGraficoCfg]
  constructor
  · intro hynone
    rw [hagg, hynone]
    rcases hx : cfg.x_col with _ | x
    · exact ⟨by simp, by intro f hf; simp at hf⟩
    · by_cases hxm : x ∉ colNames df
      · have h1 : gerarGraficoComX df x none "none" (pyLower (pyOr cfg.chart_type "bar"))
            cfg.top_n = ⟨[UiEvent.errorMsg (msgXNaoEncontrada (some x))], "", df⟩ := by
          rw [gerarGraficoComX.eq_def, if_pos hxm]
        show (∃ m, UiEvent.errorMsg m ∈ (gerarGraficoComX df x none "none"
            (pyLower (pyOr cfg.chart_type "bar")) cfg.top_n).events) ∧
          (∀ f, UiEvent.pyplot f ∉ (gerarGraficoComX df x none "none"
            (pyLower (pyOr cfg.chart_type "bar")) cfg.top_n).events)
        rw [h1]
        exact ⟨by simp, by intro f hf; simp at hf⟩
      · have h1 : gerarGraficoComX df x none "none" (pyLower (pyOr cfg.chart_type "bar"))
            cfg.top_n = ⟨[UiEvent.errorMsg msgAggNoneSemY], "", df⟩ := by
          rw [gerarGraficoComX.eq_def, if_neg hxm]
          show gerarGraficoValido df x none "none" (pyLower (pyOr cfg.chart_type "bar"))
            cfg.top_n = _
          rw [gerarGraficoValido_none_sem_y]
        show (∃ m, UiEvent.errorMsg m ∈ (gerarGraficoComX df x none "none"
            (pyLower (pyOr cfg.chart_type "bar")) cfg.top_n).events) ∧
          (∀ f, UiEvent.pyplot f ∉ (gerarGraficoComX df x none "none"
            (pyLower (pyOr cfg.chart_type "bar")) cfg.top_n).events)
        rw [h1]
        exact ⟨by simp, by intro f hf; simp at hf⟩
  · intro x y hx hxin hy hyin
    rw [hagg, hx, hy]
    show (gerarGraficoComX df x (some y) "none" (pyLower (pyOr cfg.chart_type "bar"))
      cfg.top_n).events = [UiEvent.pyplot (Figure.histFig ((coerceColOf df y).filterMap id))]
    rw [gerarGraficoComX.eq_def, if_neg (not_not_intro hxin)]
    show (gerarGraficoComY df x y "none" (pyLower (pyOr cfg.chart_type "bar"))
      cfg.top_n).events = [UiEvent.pyplot (Figure.histFig ((coerceColOf df y).filterMap id))]
    rw [gerarGraficoComY, if_neg (not_not_intro hyin), gerarGraficoValido_none_com_y]

/-- Witness for C10: a "none"-aggregation specification with valid columns
over `dfFix`; the rendered figure is the histogram of the two coercible
values of column "b", despite the requested chart kind being "line". -/
theorem grafico_agg_none_witness :
    (gerar_grafico cfgOracleAggNone dfFix "pergunta").events =
      [UiEvent.pyplot (Figure.histFig [1, 2])] := by
  have h := grafico_agg_none_comportamento cfgOracleAggNone dfFix "pergunta"
    ⟨some "a", some "b", some "none", some "line", none⟩ rfl (by decide)
  have hb := h.2 "a" "b" rfl (by decide) rfl (by decide)
  rw [hb]
  decide

/-- The loop never reports fewer model calls than it started from. -/
lemma runLoopAux_calls_ge (tools : List ToolSpec) (model : ℕ → String → ModelOut)
    (hp : Bool) (q : String) :
    ∀ fuel calls execs obs,
      calls ≤ (runLoopAux tools model hp q fuel calls execs obs).modelCalls := by
  intro fuel
  induction fuel with
  | zero => intro calls execs obs; exact Nat.le_refl _
  | succ n ih =>
    intro calls execs obs
    rcases hm : model calls q with t | ⟨nm, inp⟩ | raw
    · simp only [runLoopAux, hm]
      exact Nat.le_succ _
    · rcases hf : tools.find? (fun t => t.name == nm) with _ | t
      · simp only [runLoopAux, hm, hf]
        exact Nat.le_trans (Nat.le_succ _) (ih _ _ _)
      · simp only [runLoopAux, hm, hf]
        by_cases hrd : t.returnDirect = true
        · rw [if_pos hrd]
          exact Nat.le_succ _
        · rw [if_neg hrd]
          exact Nat.le_trans (Nat.le_succ _) (ih _ _ _)
    · simp only [runLoopAux, hm]
      by_cases hpp : hp = true
      · rw [if_pos hpp]
        exact Nat.le_trans (Nat.le_succ _) (ih _ _ _)
      · rw [if_neg hpp]
        exact Nat.le_succ _

/-- Any loop run with remaining budget makes at least one model call before
terminating. -/
lemma runLoopAux_calls_succ (tools : List ToolSpec) (model : ℕ → String → ModelOut)
    (hp : Bool) (q : String) :
    ∀ fuel calls execs obs,
      calls + 1 ≤ (runLoopAux tools model hp q (fuel + 1) calls execs obs).modelCalls := by
  intro fuel calls execs obs
  rcases hm : model calls q with t | ⟨nm, inp⟩ | raw
  · simp only [runLoopAux, hm]
    exact Nat.le_refl _
  · rcases hf : tools.find? (fun t => t.name == nm) with _ | t
    · simp only [runLoopAux, hm, hf]
      exact runLoopAux_calls_ge ..
    · simp only [runLoopAux, hm, hf]
      by_cases hrd : t.returnDirect = true
      · rw [if_pos hrd]
      · rw [if_neg hrd]
        exact runLoopAux_calls_ge ..
  · simp only [runLoopAux, hm]
    by_cases hpp : hp = true
    · rw [if_pos hpp]
      exact runLoopAux_calls_ge ..
    · rw [if_neg hpp]

/-- Every capability the loop executes was named by some model action: tool
execution is always model-routed. -/
lemma runLoopAux_executed (tools : List ToolSpec) (model : ℕ → String → ModelOut)
    (hp : Bool) (q : String) :
    ∀ fuel calls execs obs nm,
      nm ∈ (runLoopAux tools model hp q fuel calls execs obs).executed →
      nm ∈ execs ∨ ∃ n inp, model n q = ModelOut.action nm inp := by
  intro fuel
  induction fuel with
  | zero =>
    intro calls execs obs nm h
    exact Or.inl (List.mem_reverse.mp h)
  | succ n ih =>
    intro calls execs obs nm h
    rcases hm : model calls q with t | ⟨nm', inp⟩ | raw
    · simp only [runLoopAux, hm] at h
      exact Or.inl (List.mem_reverse.mp h)
    · rcases hf : tools.find? (fun t => t.name == nm') with _ | t
      · simp only [runLoopAux, hm, hf] at h
        exact ih _ _ _ _ h
      · simp only [runLoopAux, hm, hf] at h
        by_cases hrd : t.returnDirect = true
        · rw [if_pos hrd] at h
          have h' := List.mem_reverse.mp h
          rcases List.mem_cons.mp h' with rfl | hmem
          · exact Or.inr ⟨calls, inp, hm⟩
          · exact Or.inl hmem
        · rw [if_neg hrd] at h
          rcases ih _ _ _ _ h with hmem | hex
          · rcases List.mem_cons.mp hmem with rfl | hmem2
            · exact Or.inr ⟨calls, inp, hm⟩
            · exact Or.inl hmem2
          · exact Or.inr hex
    · simp only [runLoopAux, hm] at h
      by_cases hpp : hp = true
      · rw [if_pos hpp] at h
        exact ih _ _ _ _ h
      · rw [if_neg hpp] at h
        exact Or.inl (List.mem_reverse.mp h)

/-- With parse-error recovery on, a model that never produces a final answer
and never successfully selects a direct-return tool drives the loop to CAPPED,
consuming the entire iteration budget exactly. -/
lemma runLoopAux_sempre_capped (tools : List ToolSpec) (model : ℕ → String → ModelOut)
    (q : String)
    (h1 : ∀ n t, model n q ≠ ModelOut.final t)
    (h2 : ∀ n nm inp t, model n q = ModelOut.action nm inp →
      tools.find? (fun tl => tl.name == nm) = some t → t.returnDirect = false) :
    ∀ fuel calls execs obs,
      (∃ ans, (runLoopAux tools model true q fuel calls execs obs).outcome =
        LoopState.capped ans) ∧
      (runLoopAux tools model true q fuel calls execs obs).modelCalls = calls + fuel := by
  intro fuel
  induction fuel with
  | zero =>
    intro calls execs obs
    exact ⟨⟨obs, rfl⟩, rfl⟩
  | succ n ih =>
    intro calls execs obs
    rcases hm : model calls q with t | ⟨nm, inp⟩ | raw
    · exact absurd hm (h1 _ _)
    · rcases hf : tools.find? (fun tl => tl.name == nm) with _ | t
      · simp only [runLoopAux, hm, hf]
        obtain ⟨⟨a, ha⟩, hc⟩ := ih (calls + 1) execs (obsFerramentaDesconhecida nm)
        exact ⟨⟨a, ha⟩, by rw [hc]; omega⟩
      · have hrd := h2 _ _ _ _ hm hf
        simp only [runLoopAux, hm, hf]
        rw [if_neg (by simp [hrd])]
        obtain ⟨⟨a, ha⟩, hc⟩ := ih (calls + 1) (nm :: execs) (t.run inp)
        exact ⟨⟨a, ha⟩, by rw [hc]; omega⟩
    · simp only [runLoopAux, hm]
      rw [if_true]
      obtain ⟨⟨a, ha⟩, hc⟩ := ih (calls + 1) execs obsRespostaInvalida
      exact ⟨⟨a, ha⟩, by rw [hc]; omega⟩

/-- Counterexample to claim C1 as stated.  The claim says a quick-action
button invokes the corresponding capability directly, with no model-driven
routing step.  With a scripted model that simply answers, the structural
quick action makes one model (routing) call and executes NO capability at all:
the button goes through `orquestrador.invoke`, so what runs is decided by the
model. -/
theorem quick_actions_counterexample :
    (quickActionInformacoes llmOracle0 cfgOracleErro pyOracle0 dfFix mRespostaDireta).executed
      = [] ∧
    (quickActionInformacoes llmOracle0 cfgOracleErro pyOracle0 dfFix
      mRespostaDireta).modelCalls = 1 ∧
    (quickActionInformacoes llmOracle0 cfgOracleErro pyOracle0 dfFix mRespostaDireta).outcome
      = LoopState.done "Segue a resposta" :=
  ⟨rfl, rfl, rfl⟩

/-- Claim C1 as amended: each quick-action button submits its fixed input
string to the routing loop (`AgentExecutor.invoke`); the loop always makes at
least one model call, and any capability that gets executed was selected by a
model action — there is no direct, routing-free invocation. -/
theorem quick_actions_roteiam_pelo_modelo (llm : String → String)
    (llmCfg : String → Except String ChartCfg) (pyRepl : String → String) (df : Df)
    (model : ℕ → String → ModelOut) :
    1 ≤ (quickActionInformacoes llm llmCfg pyRepl df model).modelCalls ∧
    1 ≤ (quickActionEstatisticas llm llmCfg pyRepl df model).modelCalls ∧
    (∀ nm, nm ∈ (quickActionInformacoes llm llmCfg pyRepl df model).executed →
      ∃ n inp, model n inputRelatorioGeral = ModelOut.action nm inp) ∧
    (∀ nm, nm ∈ (quickActionEstatisticas llm llmCfg pyRepl df model).executed →
      ∃ n inp, model n inputRelatorioEstatisticas = ModelOut.action nm inp) := by
  refine ⟨?_, ?_, ?_, ?_⟩
  · exact runLoopAux_calls_succ (criar_ferramentas llm llmCfg pyRepl df) model true
      inputRelatorioGeral 3 0 [] ""
  · exact runLoopAux_calls_succ (criar_ferramentas llm llmCfg pyRepl df) model true
      inputRelatorioEstatisticas 3 0 [] ""
  · intro nm h
    rcases runLoopAux_executed (criar_ferramentas llm llmCfg pyRepl df) model true
        inputRelatorioGeral 4 0 [] "" nm h with hin | hex
    · exact absurd hin (List.not_mem_nil _)
    · exact hex
  · intro nm h
    rcases runLoopAux_executed (criar_ferramentas llm llmCfg pyRepl df) model true
        inputRelatorioEstatisticas 4 0 [] "" nm h with hin | hex
    · exact absurd hin (List.not_mem_nil _)
    · exact hex

/-- Witness for the amended C1: with a scripted model that routes the
structural quick action to the statistics tool, the executed capability is the
one the model picked, extracted through the theorem. -/
theorem quick_actions_witness :
    ∃ n inp, mEscolheResumo n inputRelatorioGeral = ModelOut.action "Resumo Estatístico" inp := by
  have h := quick_actions_roteiam_pelo_modelo llmOracle0 cfgOracleErro pyOracle0 dfFix
    mEscolheResumo
  exact h.2.2.1 "Resumo Estatístico" (by decide)

/-- Counterexample to claim C2 as stated.  The claim says EVERY scripted model
that never emits a final answer drives the loop to CAPPED at the iteration
limit.  A model that never emits a final answer but routes to the
direct-return tool "Informações Dataframe" ends the loop in DONE after a
single model call, because direct-return tools short-circuit the loop. -/
theorem loop_capped_counterexample :
    (∀ n p t, mEscolheInformacoes n p ≠ ModelOut.final t) ∧
    ¬ (∃ ans, (orquestradorInvoke llmOracle0 cfgOracleErro pyOracle0 dfFix
        mEscolheInformacoes "pergunta").outcome = LoopState.capped ans) ∧
    (orquestradorInvoke llmOracle0 cfgOracleErro pyOracle0 dfFix mEscolheInformacoes
      "pergunta").modelCalls = 1 := by
  refine ⟨?_, ?_, rfl⟩
  · intro n p t h
    simp [mEscolheInformacoes] at h
  · rintro ⟨ans, ha⟩
    have hd : (orquestradorInvoke llmOracle0 cfgOracleErro pyOracle0 dfFix
        mEscolheInformacoes "pergunta").outcome =
        LoopState.done ((informacoes_dataframe llmOracle0 "" dfFix).output) := rfl
    rw [hd] at ha
    exact LoopState.noConfusion ha

/-- Claim C2 as amended: for every scripted model that never emits a final
answer AND whose actions never select a direct-return tool, the loop
terminates in CAPPED having made exactly `max_iterations` (4, the value passed
to the executor in App.py) model calls, never more. -/
theorem loop_capped_em_max_iterations (llm : String → String)
    (llmCfg : String → Except String ChartCfg) (pyRepl : String → String) (df : Df)
    (q : String) (model : ℕ → String → ModelOut)
    (h1 : ∀ n t, model n q ≠ ModelOut.final t)
    (h2 : ∀ n nm inp t, model n q = ModelOut.action nm inp →
      (criar_ferramentas llm llmCfg pyRepl df).find? (fun tl => tl.name == nm) = some t →
      t.returnDirect = false) :
    (∃ ans, (orquestradorInvoke llm llmCfg pyRepl df model q).outcome =
      LoopState.capped ans) ∧
    (orquestradorInvoke llm llmCfg pyRepl df model q).modelCalls = maxIterationsApp := by
  have h := runLoopAux_sempre_capped (criar_ferramentas llm llmCfg pyRepl df) model q h1 h2
    maxIterationsApp 0 [] ""
  exact ⟨h.1, h.2⟩

/-- Witness for the amended C2: a model that always names an unregistered
tool (so it never emits a final answer and never reaches a direct-return
tool) is CAPPED after exactly 4 model calls, via the theorem. -/
theorem loop_capped_witness :
    (∃ ans, (orquestradorInvoke llmOracle0 cfgOracleErro pyOracle0 dfFix
        mFerramentaInexistente "pergunta").outcome = LoopState.capped ans) ∧
    (orquestradorInvoke llmOracle0 cfgOracleErro pyOracle0 dfFix mFerramentaInexistente
      "pergunta").modelCalls = maxIterationsApp := by
  refine loop_capped_em_max_iterations llmOracle0 cfgOracleErro pyOracle0 dfFix "pergunta"
    mFerramentaInexistente ?_ ?_
  · intro n t h
    simp [mFerramentaInexistente] at h
  · intro n nm inp t hm hf
    have hm' : "Ferramenta Inexistente" = nm ∧ "x" = inp := by
      simpa [mFerramentaInexistente, ModelOut.action.injEq] using hm
    rw [← hm'.1] at hf
    have hnone : (criar_ferramentas llmOracle0 cfgOracleErro pyOracle0 dfFix).find?
        (fun tl => tl.name == "Ferramenta Inexistente") = none := rfl
    rw [hnone] at hf
    exact Option.noConfusion hf

/-- Counterexample to claim C3 as stated.  The claim says that for every input
snippet the expression-evaluator tool cannot access the filesystem, the
network or the process environment.  The tool is `PythonAstREPLTool` with only
`locals={"df": df}`: a snippet reading an environment variable executes
successfully and touches the environment — the evaluation context is not
isolated. -/
theorem python_tool_counterexample :
    ¬ (∀ s : PySnippet,
        (pythonAstReplRun (ferramentaPythonLocals dfFix) hostOracle0 s).effects = []) := by
  intro h
  have hs := h (PySnippet.envRead "GROQ_API_KEY")
  exact absurd hs (by decide)

/-- Claim C3 as amended: every execution of the Python tool runs with the
dataframe bound as the local `df` (snippets can read the dataset table), but
the context is NOT isolated: the unrestricted builtins let snippets import
arbitrary modules and reach the process environment, the filesystem and the
network. -/
theorem python_tool_sem_isolamento (df : Df) (host : String → String) (v p u m : String) :
    (pythonAstReplRun (ferramentaPythonLocals df) host (PySnippet.readVar "df")).result
      = some (PyVal.dfVal df) ∧
    (pythonAstReplRun (ferramentaPythonLocals df) host (PySnippet.importMod m)).result
      = some (PyVal.modVal m) ∧
    (pythonAstReplRun (ferramentaPythonLocals df) host (PySnippet.envRead v)).effects
      = [HostEffect.envAccess v] ∧
    (pythonAstReplRun (ferramentaPythonLocals df) host (PySnippet.fileRead p)).effects
      = [HostEffect.fsAccess p] ∧
    (pythonAstReplRun (ferramentaPythonLocals df) host (PySnippet.urlFetch u)).effects
      = [HostEffect.netAccess u] :=
  ⟨rfl, rfl, rfl, rfl, rfl⟩

end ProjetoLangchain
